import Mathlib

/-!
Shallow embedding of the DataQuick analysis engine
(src/DataQuick/src/profiling/data_quality_analyzer.py, profiler.py,
drift_detector.py and src/DataQuick/src/catalog/lineage_tracker.py).

Cell values are modelled as integers or strings (`Val`); a pandas Series is a
`List (Option Val)` where `none` stands for a null/NaN entry.  Python floats
are modelled by `ℚ` (all arithmetic relevant to the claims is exact at the
inputs considered).  Regular-expression tests from the source are modelled by
executable character-list matchers with the same success semantics.
-/

namespace DataQuick

/-- A scalar cell value: an integer or a string.  This is the data universe
the claims range over; `none` in a series models a null/NaN cell. -/
inductive Val
  | int (n : ℤ)
  | str (s : String)
deriving DecidableEq, Repr

/-- A pandas Series: an ordered column of nullable cells. -/
abbrev Series := List (Option Val)

/-- `series.dropna()`: the non-null values, in order. -/
def nonNull (s : Series) : List Val := s.filterMap (fun x => x)

/-- Python whitespace characters (as stripped by `str.strip()` and matched
by the regex class `\s`). -/
def pySpace (c : Char) : Bool :=
  c == ' ' || c == '\t' || c == '\n' || c == '\r' || c.toNat == 11 || c.toNat == 12

/-- `str.strip()`: remove leading and trailing whitespace. -/
def pyStrip (s : String) : String :=
  ⟨((s.toList.dropWhile pySpace).reverse.dropWhile pySpace).reverse⟩

/-- `str.lower()` (ASCII model). -/
def pyLower (s : String) : String := s.map Char.toLower

/-- Decimal digits to a natural number. -/
def digitsToNat (cs : List Char) : ℕ :=
  cs.foldl (fun a c => a * 10 + (c.toNat - 48)) 0

/-- Unsigned numeric literal: `digits`, `digits.digits`, `digits.` or
`.digits` (the forms accepted by Python `float()` / `pd.to_numeric` that the
claims exercise; exponents and `inf`/`nan` spellings are not modelled). -/
def parseNumCore (cs : List Char) : Option ℚ :=
  let ip := cs.takeWhile Char.isDigit
  let rest := cs.dropWhile Char.isDigit
  match rest with
  | [] => if ip.isEmpty then none else some (digitsToNat ip : ℚ)
  | '.' :: fp =>
      if fp.all Char.isDigit && !(ip.isEmpty && fp.isEmpty) then
        some ((digitsToNat ip : ℚ) + (digitsToNat fp : ℚ) / (10 : ℚ) ^ fp.length)
      else none
  | _ => none

/-- Python `float(s)` on a string: strip whitespace, optional sign, then an
unsigned numeric literal. -/
def parseNum (s : String) : Option ℚ :=
  let cs := ((s.toList.dropWhile pySpace).reverse.dropWhile pySpace).reverse
  match cs with
  | '-' :: rest => (parseNumCore rest).map Neg.neg
  | '+' :: rest => parseNumCore rest
  | _ => parseNumCore cs

/-- The numeric cast applied per value by `pd.to_numeric` and `float(val)`:
an integer casts to itself, a string must parse as a numeric literal.
(The embedding models both casts with the same parser.) -/
def toNumeric : Val → Option ℚ
  | .int n => some (n : ℚ)
  | .str s => parseNum s

/-- Python `str(val)` as used by `.astype(str)` on the model universe. -/
def valToStr : Val → String
  | .int n => toString n
  | .str s => s

/-! ### Regex-shaped matchers

The source tests values against date-shaped regular expressions.  All the
patterns used have the form "d₁ digits, separator, d₂ digits, separator,
d₃ digits" with counted ranges; a match (with backtracking) exists iff some
choice of counts fits, which is what `tripleAt` decides. -/

/-- Consume exactly `k` digit characters, returning the remainder. -/
def digitsRunExact : ℕ → List Char → Option (List Char)
  | 0, cs => some cs
  | _ + 1, [] => none
  | k + 1, c :: cs => if c.isDigit then digitsRunExact k cs else none

/-- Consume one separator character accepted by `ok`. -/
def matchSep (ok : Char → Bool) : List Char → Option (List Char)
  | [] => none
  | c :: cs => if ok c then some cs else none

/-- The digit-count candidates for a counted repetition of `lo` to `hi`. -/
def rangeList (lo hi : ℕ) : List ℕ := (List.range (hi + 1)).filter (fun k => lo ≤ k)

/-- Does "lo1-hi1 digits, separator, lo2-hi2 digits, separator, lo3-hi3
digits" match starting at the head of `cs` (as with `re.match`: anything may
follow the matched span)? -/
def tripleAt (lo1 hi1 : ℕ) (sep1 : Char → Bool) (lo2 hi2 : ℕ) (sep2 : Char → Bool)
    (lo3 hi3 : ℕ) (cs : List Char) : Bool :=
  (rangeList lo1 hi1).any fun k1 =>
    match digitsRunExact k1 cs with
    | none => false
    | some r1 =>
      match matchSep sep1 r1 with
      | none => false
      | some r2 =>
        (rangeList lo2 hi2).any fun k2 =>
          match digitsRunExact k2 r2 with
          | none => false
          | some r3 =>
            match matchSep sep2 r3 with
            | none => false
            | some r4 => (rangeList lo3 hi3).any fun k3 => (digitsRunExact k3 r4).isSome

/-- The separator class "dash or slash". -/
def sepDashSlash (c : Char) : Bool := c == '-' || c == '/'

/-- One value's test in `_is_date_column`: `re.search` of any of the three
patterns — generic "1-4 digits, dash/slash, 1-2 digits, dash/slash, 1-4
digits", ISO "4 digits, dash, 2 digits, dash, 2 digits", and US "2 digits,
slash, 2 digits, slash, 4 digits" (search = a match starting anywhere). -/
def searchDatePattern (s : String) : Bool :=
  let cs := s.toList
  (cs.tails.any (tripleAt 1 4 sepDashSlash 1 2 sepDashSlash 1 4)) ||
  (cs.tails.any (tripleAt 4 4 (fun c => c == '-') 2 2 (fun c => c == '-') 2 2)) ||
  (cs.tails.any (tripleAt 2 2 (fun c => c == '/') 2 2 (fun c => c == '/') 4 4))

/-- The first 20 non-null values as strings (`dropna().astype(str).head(20)`). -/
def dateSample (nn : List Val) : List String := (nn.map valToStr).take 20

/-- `_is_date_column(series)`: strictly more than half of the first 20
non-null string values match a date pattern (false on an empty sample). -/
def isDateColumn (nn : List Val) : Prop :=
  0 < (dateSample nn).length ∧
    (1 : ℚ) / 2 < ((dateSample nn).countP searchDatePattern : ℚ) / ((dateSample nn).length : ℚ)

instance (nn : List Val) : Decidable (isDateColumn nn) := by
  unfold isDateColumn; infer_instance

/-- Distinct values in first-seen order (`pandas.Series.unique()`). -/
def uniqueList {α : Type _} [DecidableEq α] : List α → List α
  | [] => []
  | a :: as => a :: uniqueList (as.filter (fun b => b ≠ a))
termination_by l => l.length
decreasing_by
  simp only [List.length_cons]
  exact Nat.lt_succ_of_le (List.length_filter_le _ as)

/-- `series.duplicated().sum()` with `seen` the values already passed:
counts entries that already occurred earlier. -/
def countDupFrom {α : Type _} [DecidableEq α] : List α → List α → ℕ
  | _, [] => 0
  | seen, a :: as => (if a ∈ seen then 1 else 0) + countDupFrom (a :: seen) as

/-- Number of duplicated (non-first-occurrence) entries. -/
def dupCount {α : Type _} [DecidableEq α] (l : List α) : ℕ := countDupFrom [] l

/-- `DataQualityAnalyzer._infer_type`: numeric if every non-null value casts,
else date, else categorical when the distinct ratio is below 5% or the
distinct count is below 20, else string; `unknown` on empty non-null input. -/
def inferType (s : Series) : String :=
  let nn := nonNull s
  if nn.length = 0 then "unknown"
  else if nn.all (fun v => (toNumeric v).isSome) then "numeric"
  else if isDateColumn nn then "date"
  else if ((uniqueList nn).length : ℚ) / (nn.length : ℚ) < 5 / 100 ∨
          (uniqueList nn).length < 20 then "categorical"
  else "string"

/-! ### Quality analyzer checks

Each check of `DataQualityAnalyzer._analyze_column` is embedded as a function
returning the list of issues it appends.  An issue record keeps the fields the
claims talk about (column name, type, severity, count, percentage); database
ids, description strings, examples and suggested fixes are not modelled. -/

/-- A detected quality issue (the fields relevant to the claims). -/
structure QIssue where
  column_name : String
  issue_type : String
  severity : String
  count : ℕ
  percentage : ℚ
deriving DecidableEq, Repr

/-- Check 1 of `_analyze_column`: missing/null values.  Severity critical when
the null percentage exceeds 30, high when it exceeds 10, else medium. -/
def missingValuesIssues (colName : String) (s : Series) : List QIssue :=
  let nullCount := s.countP (fun x => x.isNone)
  let nullPct : ℚ := if 0 < s.length then (nullCount : ℚ) / (s.length : ℚ) * 100 else 0
  if 0 < nullCount then
    [{ column_name := colName, issue_type := "missing_values",
       severity := if 30 < nullPct then "critical" else if 10 < nullPct then "high" else "medium",
       count := nullCount, percentage := nullPct }]
  else []

/-- Check 2 of `_analyze_column`: duplicated non-null values.  Severity medium
when the duplicate percentage is below 20, else high. -/
def duplicatesIssues (colName : String) (s : Series) : List QIssue :=
  let nn := nonNull s
  if 0 < nn.length then
    let dc := dupCount nn
    let dp : ℚ := (dc : ℚ) / (nn.length : ℚ) * 100
    if 0 < dc then
      [{ column_name := colName, issue_type := "duplicates",
         severity := if dp < 20 then "medium" else "high",
         count := dc, percentage := dp }]
    else []
  else []

/-- Element at (integer) position `i` of a list, with a default for
out-of-range positions. -/
def nthD : List ℚ → ℤ → ℚ → ℚ
  | [], _, d => d
  | x :: xs, i, d => if i = 0 then x else nthD xs (i - 1) d

/-- Linear-interpolation quantile of the sorted values, as
`pandas.Series.quantile` computes it: with `pos = p * (n - 1)` and
`i = ⌊pos⌋`, interpolate between the sorted elements at positions `i` and
`i + 1` (0 on an empty list). -/
def quantileQ (l : List ℚ) (p : ℚ) : ℚ :=
  if l.length = 0 then 0
  else
    let sorted := l.insertionSort (fun a b => a ≤ b)
    let pos := p * ((l.length : ℚ) - 1)
    let i : ℤ := ⌊pos⌋
    let xi := nthD sorted i 0
    let xi1 := nthD sorted (i + 1) xi
    xi + (xi1 - xi) * (pos - (i : ℚ))

/-- `_check_numeric_issues`: invalid numeric values (distinct non-null values
whose per-value cast fails), negative values among the valid numerics, and
IQR outliers. -/
def checkNumericIssues (colName : String) (s : Series) : List QIssue :=
  let nn := nonNull s
  let invalid := (uniqueList nn).filter (fun v => (toNumeric v).isNone)
  let i1 :=
    if 0 < invalid.length then
      let cnt := nn.countP (fun v => valToStr v ∈ invalid.map valToStr)
      [{ column_name := colName, issue_type := "invalid_numeric", severity := "critical",
         count := cnt, percentage := (cnt : ℚ) / (nn.length : ℚ) * 100 }]
    else []
  let numericVals := nn.filterMap toNumeric
  let i2 :=
    if 0 < numericVals.length then
      let neg := numericVals.countP (fun x => x < 0)
      if 0 < neg then
        [{ column_name := colName, issue_type := "negative_values", severity := "high",
           count := neg, percentage := (neg : ℚ) / (numericVals.length : ℚ) * 100 }]
      else []
    else []
  let i3 :=
    if 0 < numericVals.length then
      let q1 := quantileQ numericVals (1 / 4)
      let q3 := quantileQ numericVals (3 / 4)
      let iqr := q3 - q1
      let outCount := numericVals.countP (fun x => x < q1 - 3 / 2 * iqr ∨ q3 + 3 / 2 * iqr < x)
      if 0 < outCount then
        [{ column_name := colName, issue_type := "outliers",
           severity := if (outCount : ℚ) / (numericVals.length : ℚ) < 5 / 100
                       then "low" else "medium",
           count := outCount, percentage := (outCount : ℚ) / (numericVals.length : ℚ) * 100 }]
      else []
    else []
  i1 ++ i2 ++ i3

/-- `_check_date_issues`' shape classifier (`re.match` against the anchored
patterns, in order: ISO, US, generic mixed, else invalid). -/
def dateFormatOf (s : String) : String :=
  let cs := s.toList
  if tripleAt 4 4 (fun c => c == '-') 2 2 (fun c => c == '-') 2 2 cs then "YYYY-MM-DD"
  else if tripleAt 2 2 (fun c => c == '/') 2 2 (fun c => c == '/') 4 4 cs then "MM/DD/YYYY"
  else if tripleAt 1 2 sepDashSlash 1 2 sepDashSlash 2 4 cs then "Mixed format"
  else "Invalid"

/-- Count one occurrence of key `k` in the insertion-ordered tally `acc`
(a Python dict built with `get(fmt, 0) + 1`). -/
def bumpTally (acc : List (String × ℕ)) (k : String) : List (String × ℕ) :=
  if acc.any (fun p => p.1 == k) then
    acc.map (fun p => if p.1 == k then (p.1, p.2 + 1) else p)
  else acc ++ [(k, 1)]

/-- The `date_formats` tally of `_check_date_issues`: shapes of the first 100
distinct non-null string values with their counts, in first-seen order. -/
def dateFormatsTally (nn : List String) : List (String × ℕ) :=
  ((uniqueList nn).take 100).foldl (fun acc v => bumpTally acc (dateFormatOf v)) []

/-- `_check_date_issues`: one `mixed_date_formats` issue (high, 100%) whenever
more than one distinct shape appears. -/
def checkDateIssues (colName : String) (s : Series) : List QIssue :=
  let nn := (nonNull s).map valToStr
  if 1 < (dateFormatsTally nn).length then
    [{ column_name := colName, issue_type := "mixed_date_formats", severity := "high",
       count := nn.length, percentage := 100 }]
  else []

/-- `_check_categorical_issues`: casing inconsistencies and whitespace
issues. -/
def checkCategoricalIssues (colName : String) (s : Series) : List QIssue :=
  let nn := (nonNull s).map valToStr
  let uniq := uniqueList nn
  let uniqLower := uniqueList (nn.map pyLower)
  let i1 :=
    if uniqLower.length < uniq.length then
      [{ column_name := colName, issue_type := "case_sensitivity", severity := "medium",
         count := uniq.length, percentage := (uniq.length : ℚ) / (nn.length : ℚ) * 100 }]
    else []
  let ws := uniqueList (nn.filter (fun v => pyStrip v ≠ v))
  let i2 :=
    if 0 < ws.length then
      [{ column_name := colName, issue_type := "whitespace_issues", severity := "medium",
         count := ws.length, percentage := (ws.length : ℚ) / (nn.length : ℚ) * 100 }]
    else []
  i1 ++ i2

/-- The character class of `_check_string_issues`: anything outside word
characters, whitespace, hyphen and period is "special". -/
def isSpecialChar (c : Char) : Bool :=
  !(c.isAlphanum || c == '_' || pySpace c || c == '-' || c == '.')

/-- Does the value contain a special character (`str.contains` regex)? -/
def hasSpecialChar (s : String) : Bool := s.toList.any isSpecialChar

/-- `_check_string_issues`: special characters and unusually long values. -/
def checkStringIssues (colName : String) (s : Series) : List QIssue :=
  let nn := (nonNull s).map valToStr
  if nn.length = 0 then []
  else
    let sp := uniqueList (nn.filter hasSpecialChar)
    let i1 :=
      if 0 < sp.length then
        [{ column_name := colName, issue_type := "special_characters", severity := "low",
           count := sp.length, percentage := (sp.length : ℚ) / (nn.length : ℚ) * 100 }]
      else []
    let maxLen := (nn.map String.length).foldl max 0
    let longCount := nn.countP (fun v => 1000 < v.length)
    let i2 :=
      if 1000 < maxLen then
        [{ column_name := colName, issue_type := "unusually_long_values", severity := "low",
           count := longCount, percentage := (longCount : ℚ) / (nn.length : ℚ) * 100 }]
      else []
    i1 ++ i2

/-- `_analyze_column`: the base checks followed by the type-dispatched checks
(an exclusive dispatch on the inferred type). -/
def analyzeColumn (colName : String) (s : Series) : List QIssue :=
  missingValuesIssues colName s ++ duplicatesIssues colName s ++
    (if inferType s = "numeric" then checkNumericIssues colName s
     else if inferType s = "date" then checkDateIssues colName s
     else if inferType s = "categorical" then checkCategoricalIssues colName s
     else checkStringIssues colName s)

/-- `analyze_dataframe`: analyze every column and concatenate the issues. -/
def analyzeDataframe (df : List (String × Series)) : List QIssue :=
  df.flatMap (fun p => analyzeColumn p.1 p.2)

/-! ### Profiler (`DataProfiler.profile_column`)

Only the null/uniqueness fields of the profile are embedded; the numeric
moments, histogram and samples are not needed by the claims on this
component. -/

/-- `df.isna().sum()`. -/
def nullCount (s : Series) : ℕ := s.countP (fun x => x.isNone)

/-- `(df.isna().sum() / len(df) * 100) if len(df) > 0 else 0`. -/
def nullPercentage (s : Series) : ℚ :=
  if 0 < s.length then (nullCount s : ℚ) / (s.length : ℚ) * 100 else 0

/-- `df.nunique()`: distinct non-null values. -/
def uniqueCount (s : Series) : ℕ := (uniqueList (nonNull s)).length

/-- `(df.nunique() / len(df) * 100) if len(df) > 0 else 0`. -/
def uniquePercentage (s : Series) : ℚ :=
  if 0 < s.length then (uniqueCount s : ℚ) / (s.length : ℚ) * 100 else 0

/-- The null/uniqueness block of a column profile. -/
structure ColumnProfile where
  column_name : String
  null_count : ℕ
  null_percentage : ℚ
  unique_count : ℕ
  unique_percentage : ℚ
deriving DecidableEq, Repr

/-- `profile_column` (the fields the claims are about). -/
def profileColumn (s : Series) (name : String) : ColumnProfile :=
  { column_name := name, null_count := nullCount s, null_percentage := nullPercentage s,
    unique_count := uniqueCount s, unique_percentage := uniquePercentage s }

/-! ### Drift detector (`DriftDetector.detect_data_drift`) -/

/-- A persisted `Profile` row (the columns `detect_data_drift` reads).
`mean_value` is a `Float` column in the store, hence `Option ℚ`. -/
structure ProfileRec where
  table_id : ℕ
  column_id : ℕ
  profile_timestamp : ℕ
  null_percentage : Option ℚ
  mean_value : Option ℚ
  unique_count : Option ℤ
deriving DecidableEq, Repr

/-- A Python value as found in the `new_profile` dict under `mean_value`:
a number or a string. -/
inductive PyVal
  | num (q : ℚ)
  | str (s : String)
deriving DecidableEq, Repr

/-- Python truthiness of a `PyVal` (zero and the empty string are falsy). -/
def pyTruthy : PyVal → Bool
  | .num q => decide (q ≠ 0)
  | .str s => s ≠ ""

/-- `float(v)` on a `PyVal`. -/
def pyFloat : PyVal → Option ℚ
  | .num q => some q
  | .str s => parseNum s

/-- The `new_profile` dict passed to `detect_data_drift` (absent keys are
`none`; `.get(key, 0)` is modelled by `getD 0`). -/
structure NewProfile where
  null_percentage : Option ℚ
  mean_value : Option PyVal
  unique_count : Option ℤ
deriving DecidableEq, Repr

/-- One drifted metric in the report. -/
structure DriftMetric where
  metric : String
  previous : ℚ
  current : ℚ
  change_rate : ℚ
deriving DecidableEq, Repr

/-- The persisted drift report (`data_drift` Issue row). -/
structure DriftIssue where
  table_id : ℕ
  column_id : ℕ
  issue_type : String
  severity : String
deriving DecidableEq, Repr

/-- The returned drift result. -/
structure DriftResult where
  table_id : ℕ
  column_id : ℕ
  drifts : List DriftMetric
  severity : String
deriving DecidableEq, Repr

/-- The null-percentage branch of `detect_data_drift`: relative change
`|current - previous| / (previous + 1)` against the threshold, skipped when
the stored value is null. -/
def nullDriftEntries (prev : Option ℚ) (curr : ℚ) (threshold : ℚ) : List DriftMetric :=
  match prev with
  | none => []
  | some p =>
      let ch := |curr - p| / (p + 1)
      if threshold < ch then [{ metric := "null_percentage", previous := p, current := curr,
                                change_rate := ch }] else []

/-- The mean-value branch of `detect_data_drift`: guarded by
`previous_profile.mean_value is not None and new_profile.get("mean_value")`
(a truthiness test on the new value), then `float` casts inside
`try/except`, then relative change `|curr - prev| / (|prev| + 1)`. -/
def meanDriftEntries (prev : Option ℚ) (curr : Option PyVal) (threshold : ℚ) :
    List DriftMetric :=
  match prev with
  | none => []
  | some p =>
    match curr with
    | none => []
    | some v =>
      if pyTruthy v then
        match pyFloat v with
        | none => []
        | some c =>
            let ch := |c - p| / (|p| + 1)
            if threshold < ch then [{ metric := "mean_value", previous := p, current := c,
                                      change_rate := ch }] else []
      else []

/-- The unique-count branch of `detect_data_drift`: relative change
`|current - previous| / (previous + 1)`, skipped when the stored value is
null. -/
def uniqueDriftEntries (prev : Option ℤ) (curr : ℤ) (threshold : ℚ) : List DriftMetric :=
  match prev with
  | none => []
  | some p =>
      let ch := |(curr : ℚ) - (p : ℚ)| / ((p : ℚ) + 1)
      if threshold < ch then [{ metric := "unique_count", previous := (p : ℚ),
                                current := (curr : ℚ), change_rate := ch }] else []

/-- The stored profiles matching `(table_id, column_id)`, most recent first
(the query `order_by(desc(profile_timestamp))`). -/
def profilesDesc (profiles : List ProfileRec) (table_id column_id : ℕ) : List ProfileRec :=
  (profiles.filter (fun p => p.table_id == table_id && p.column_id == column_id)).insertionSort
    (fun a b => b.profile_timestamp ≤ a.profile_timestamp)

/-- `detect_data_drift`: compare against the second most recent stored profile
(`offset(1).first()`); with no such prior profile, return nothing and leave
the issue store untouched.  Returns the optional drift result and the issue
store after the call. -/
def detectDataDrift (profiles : List ProfileRec) (issues : List DriftIssue)
    (table_id column_id : ℕ) (newP : NewProfile) (threshold : ℚ) :
    Option DriftResult × List DriftIssue :=
  match ((profilesDesc profiles table_id column_id).drop 1).head? with
  | none => (none, issues)
  | some prev =>
      let drifts :=
        nullDriftEntries prev.null_percentage (newP.null_percentage.getD 0) threshold ++
        meanDriftEntries prev.mean_value newP.mean_value threshold ++
        uniqueDriftEntries prev.unique_count (newP.unique_count.getD 0) threshold
      if 0 < drifts.length then
        let sev := if 2 < drifts.length then "high" else "medium"
        (some { table_id := table_id, column_id := column_id, drifts := drifts,
                severity := sev },
         issues ++ [{ table_id := table_id, column_id := column_id,
                      issue_type := "data_drift", severity := sev }])
      else (none, issues)

/-! ### Lineage tracker (`LineageTracker`) -/

/-- A `LineageEdge` row. -/
structure LinEdge where
  source_column_id : ℕ
  target_column_id : ℕ
  lineage_type : String
  transformation_logic : String
deriving DecidableEq, Repr

/-- `add_lineage_edge`: return the existing edge for the exact
(source, target) pair if there is one, otherwise append a new edge.
Returns the edge and the store after the call. -/
def addLineageEdge (edges : List LinEdge) (src tgt : ℕ) (ltype tlogic : String) :
    LinEdge × List LinEdge :=
  match edges.find? (fun e => e.source_column_id == src && e.target_column_id == tgt) with
  | some e => (e, edges)
  | none =>
      let e : LinEdge := { source_column_id := src, target_column_id := tgt,
                           lineage_type := ltype, transformation_logic := tlogic }
      (e, edges ++ [e])

/-- The mutable state threaded through a traversal: the visited set and the
accumulated dependency list (we record each appended entry's column id). -/
structure TravState where
  visited : List ℕ
  deps : List ℕ
deriving DecidableEq, Repr

/-- The field an edge is matched on: `target_column_id` for the upstream
query `filter_by(target_column_id=column_id)`, `source_column_id` for the
downstream one. -/
def endId (up : Bool) (e : LinEdge) : ℕ :=
  if up then e.target_column_id else e.source_column_id

/-- The neighbour reached through an edge (the opposite endpoint). -/
def nextId (up : Bool) (e : LinEdge) : ℕ :=
  if up then e.source_column_id else e.target_column_id

mutual

/-- `_traverse_upstream` / `_traverse_downstream` (they differ only in which
edge endpoint is matched, selected by `up`): stop at depth 0 or on a visited
node, otherwise mark the node visited and walk its incident edges.  `cols` is
the set of column ids present in the store (the `if source_col:` check). -/
def traverseLin (edges : List LinEdge) (cols : List ℕ) (up : Bool)
    (depth : ℕ) (c : ℕ) (st : TravState) : TravState :=
  match depth with
  | 0 => st
  | d + 1 =>
      if c ∈ st.visited then st
      else traverseLinEdges edges cols up d (edges.filter (fun e => endId up e == c))
             { st with visited := c :: st.visited }
termination_by (depth, 0)

/-- The edge loop of the traversal: for each matched edge whose neighbour
exists, append the neighbour to the dependency list and recurse into it with
one less depth. -/
def traverseLinEdges (edges : List LinEdge) (cols : List ℕ) (up : Bool)
    (d : ℕ) (es : List LinEdge) (st : TravState) : TravState :=
  match es with
  | [] => st
  | e :: rest =>
      traverseLinEdges edges cols up d rest
        (if nextId up e ∈ cols then
           traverseLin edges cols up d (nextId up e) { st with deps := st.deps ++ [nextId up e] }
         else st)
termination_by (d, es.length + 1)

end

/-- `get_upstream_lineage`: traverse from an empty visited set and empty
dependency list (default depth 10 at the call site). -/
def getUpstream (edges : List LinEdge) (cols : List ℕ) (depth c : ℕ) : TravState :=
  traverseLin edges cols true depth c { visited := [], deps := [] }

/-- `get_downstream_lineage`: the downstream counterpart. -/
def getDownstream (edges : List LinEdge) (cols : List ℕ) (depth c : ℕ) : TravState :=
  traverseLin edges cols false depth c { visited := [], deps := [] }

/-! ### Helper lemmas -/

lemma uniqueList_length_le {α : Type _} [DecidableEq α] (l : List α) :
    (uniqueList l).length ≤ l.length := by
  induction l using uniqueList.induct with
  | case1 => simp [uniqueList]
  | case2 a as ih =>
      rw [uniqueList]
      simpa using Nat.succ_le_succ (le_trans ih (List.length_filter_le _ _))

lemma mem_of_mem_uniqueList {α : Type _} [DecidableEq α] (l : List α) :
    ∀ a : α, a ∈ uniqueList l → a ∈ l := by
  induction l using uniqueList.induct with
  | case1 => intro a h; simp [uniqueList] at h
  | case2 b bs ih =>
      intro a h
      rw [uniqueList] at h
      rcases List.mem_cons.mp h with h | h
      · simp [h]
      · exact List.mem_cons_of_mem _ (List.mem_of_mem_filter (ih a h))

lemma nonNull_length_le (s : Series) : (nonNull s).length ≤ s.length :=
  List.length_filterMap_le _ _

/-! ### C9 — profiler count and percentage invariants -/

/-- C9: for every input series, `profile_column` returns `null_count` and
`unique_count` that never exceed the row count; for nonempty input
`unique_percentage` equals `unique_count / len * 100` and lies in `[0, 100]`;
for empty input both percentages are 0. -/
theorem profileColumn_bounds (s : Series) (name : String) :
    (profileColumn s name).null_count ≤ s.length ∧
    (profileColumn s name).unique_count ≤ s.length ∧
    (s ≠ [] →
      (profileColumn s name).unique_percentage
        = ((profileColumn s name).unique_count : ℚ) / (s.length : ℚ) * 100 ∧
      0 ≤ (profileColumn s name).unique_percentage ∧
      (profileColumn s name).unique_percentage ≤ 100) ∧
    (s = [] →
      (profileColumn s name).null_percentage = 0 ∧
      (profileColumn s name).unique_percentage = 0) := by
  refine ⟨List.countP_le_length _, ?_, ?_, ?_⟩
  · exact le_trans (uniqueList_length_le _) (nonNull_length_le s)
  · intro hne
    have hpos : 0 < s.length := List.length_pos.mpr hne
    have hup : (profileColumn s name).unique_percentage
        = (uniqueCount s : ℚ) / (s.length : ℚ) * 100 := by
      simp [profileColumn, uniquePercentage, hpos]
    refine ⟨hup, ?_, ?_⟩
    · rw [hup]; positivity
    · rw [hup]
      have hq : (0 : ℚ) < (s.length : ℚ) := by exact_mod_cast hpos
      have hle : (uniqueCount s : ℚ) ≤ (s.length : ℚ) := by
        exact_mod_cast le_trans (uniqueList_length_le _) (nonNull_length_le s)
      rw [div_mul_eq_mul_div, div_le_iff₀ hq]
      nlinarith
  · intro he
    subst he
    simp [profileColumn, nullPercentage, uniquePercentage]

/-- C9 witness: the invariants at the concrete series `[some 1, none]`. -/
theorem profileColumn_bounds_witness :
    (profileColumn [some (.int 1), none] "c").unique_percentage
      = ((profileColumn [some (.int 1), none] "c").unique_count : ℚ)
          / (([some (.int 1), none] : Series).length : ℚ) * 100 ∧
    0 ≤ (profileColumn [some (.int 1), none] "c").unique_percentage ∧
    (profileColumn [some (.int 1), none] "c").unique_percentage ≤ 100 :=
  (profileColumn_bounds [some (.int 1), none] "c").2.2.1 (by decide)

/-! ### C6 — idempotent lineage-edge insertion -/

/-- C6: when no edge for the pair exists yet, calling `add_lineage_edge` twice
with the same `(source, target)` pair leaves the store of the first call
unchanged, returns the same edge again, and the store holds exactly one edge
for that pair. -/
theorem addLineageEdge_idempotent (edges : List LinEdge) (src tgt : ℕ) (ty tr : String)
    (h : edges.find? (fun e => e.source_column_id == src && e.target_column_id == tgt)
          = none) :
    (addLineageEdge (addLineageEdge edges src tgt ty tr).2 src tgt ty tr).2
      = (addLineageEdge edges src tgt ty tr).2 ∧
    (addLineageEdge (addLineageEdge edges src tgt ty tr).2 src tgt ty tr).1
      = (addLineageEdge edges src tgt ty tr).1 ∧
    ((addLineageEdge edges src tgt ty tr).2.filter
        (fun e => e.source_column_id == src && e.target_column_id == tgt)).length = 1 := by
  set e0 : LinEdge := ⟨src, tgt, ty, tr⟩ with he0
  have hall : ∀ e ∈ edges,
      ¬ (e.source_column_id == src && e.target_column_id == tgt) = true := by
    intro e he
    exact List.find?_eq_none.mp h e he
  have hfilter : edges.filter
      (fun e => e.source_column_id == src && e.target_column_id == tgt) = [] :=
    List.filter_eq_nil_iff.mpr (by intro e he; simpa using hall e he)
  have hstep : addLineageEdge edges src tgt ty tr = (e0, edges ++ [e0]) := by
    unfold addLineageEdge
    rw [h]
  have hfind2 : (edges ++ [e0]).find?
      (fun e => e.source_column_id == src && e.target_column_id == tgt) = some e0 := by
    rw [List.find?_append, h]
    simp [List.find?, he0]
  refine ⟨?_, ?_, ?_⟩
  · rw [hstep]
    unfold addLineageEdge
    rw [hfind2]
  · rw [hstep]
    unfold addLineageEdge
    rw [hfind2]
  · rw [hstep]
    simp only [List.filter_append, hfilter, List.nil_append]
    simp [List.filter, he0]

/-- C6 witness: the idempotence facts at a concrete empty store. -/
theorem addLineageEdge_idempotent_witness :
    (addLineageEdge (addLineageEdge [] 1 2 "direct" "").2 1 2 "direct" "").2
      = (addLineageEdge [] 1 2 "direct" "").2 ∧
    (addLineageEdge (addLineageEdge [] 1 2 "direct" "").2 1 2 "direct" "").1
      = (addLineageEdge [] 1 2 "direct" "").1 ∧
    ((addLineageEdge [] 1 2 "direct" "").2.filter
        (fun e => e.source_column_id == 1 && e.target_column_id == 2)).length = 1 :=
  addLineageEdge_idempotent [] 1 2 "direct" "" (by decide)

/-! ### C7 — drift detection without a prior profile is a no-op -/

/-- C7: when at most one profile is stored for `(table, column)` (so there is
no prior profile beyond the just-written one), `detect_data_drift` returns no
drift report and appends no issue. -/
theorem detectDataDrift_no_prior (profiles : List ProfileRec) (issues : List DriftIssue)
    (t c : ℕ) (newP : NewProfile) (th : ℚ)
    (h : (profiles.filter (fun p => p.table_id == t && p.column_id == c)).length ≤ 1) :
    detectDataDrift profiles issues t c newP th = (none, issues) := by
  have hlen : (profilesDesc profiles t c).length ≤ 1 := by
    unfold profilesDesc
    rw [List.length_insertionSort]
    exact h
  have hdrop : (profilesDesc profiles t c).drop 1 = [] := by
    rw [← List.length_eq_zero, List.length_drop]
    omega
  unfold detectDataDrift
  rw [hdrop]
  rfl

/-- C7 witness: a first run on a column with `null_percentage = 0` and an
empty profile store emits nothing. -/
theorem detectDataDrift_no_prior_witness :
    detectDataDrift [] [] 1 1
      { null_percentage := some 0, mean_value := none, unique_count := some 3 } (1 / 5)
      = (none, []) :=
  detectDataDrift_no_prior [] [] 1 1
    { null_percentage := some 0, mean_value := none, unique_count := some 3 } (1 / 5)
    (by decide)

/-! ### C2 — traversal termination and the size of the reported list

The traversal functions are total, so termination holds for every graph,
cycles included.  The returned list, however, records one entry per incident
edge of every newly expanded node — a node reachable along several edges is
reported once per such edge, not once.  The provable size bound is the number
of edges, via a potential argument: expanding a node `c` pays for its
incident edges out of the pool of edges whose matched endpoint is not yet
visited. -/

/-- The number of edges whose matched endpoint is not yet visited. -/
def phiR (edges : List LinEdge) (up : Bool) (v : List ℕ) : ℕ :=
  edges.countP (fun e => decide (endId up e ∉ v))

/-- The traversal potential: reported entries plus unvisited-target edges. -/
def phi (edges : List LinEdge) (up : Bool) (st : TravState) : ℕ :=
  st.deps.length + phiR edges up st.visited

lemma phiR_cons_split (edges : List LinEdge) (up : Bool) (v : List ℕ) (c : ℕ)
    (hc : c ∉ v) :
    phiR edges up v
      = phiR edges up (c :: v) + edges.countP (fun e => endId up e == c) := by
  induction edges with
  | nil => simp [phiR]
  | cons e es ih =>
      unfold phiR at ih ⊢
      rw [List.countP_cons, List.countP_cons, List.countP_cons]
      have hsplit : (if (decide (endId up e ∉ v)) = true then 1 else 0)
          = (if (decide (endId up e ∉ c :: v)) = true then 1 else 0)
            + (if (endId up e == c) = true then 1 else 0) := by
        by_cases h1 : endId up e = c
        · simp [h1, hc]
        · by_cases hv : endId up e ∈ v
          · simp [h1, hv]
          · simp [h1, hv]
      omega

lemma traverseLinEdges_phi (edges : List LinEdge) (cols : List ℕ) (up : Bool) (d : ℕ)
    (IH : ∀ c st, phi edges up (traverseLin edges cols up d c st) ≤ phi edges up st) :
    ∀ (es : List LinEdge) (st : TravState),
      phi edges up (traverseLinEdges edges cols up d es st) ≤ phi edges up st + es.length := by
  intro es
  induction es with
  | nil => intro st; simp [traverseLinEdges]
  | cons e rest ih =>
      intro st
      rw [traverseLinEdges]
      have hstep : phi edges up
          (if nextId up e ∈ cols then
             traverseLin edges cols up d (nextId up e) { st with deps := st.deps ++ [nextId up e] }
           else st) ≤ phi edges up st + 1 := by
        split
        · refine le_trans (IH _ _) ?_
          simp [phi]
          omega
        · exact Nat.le_succ _
      refine le_trans (ih _) ?_
      simp only [List.length_cons]
      omega

lemma traverseLin_phi (edges : List LinEdge) (cols : List ℕ) (up : Bool) :
    ∀ (d : ℕ) (c : ℕ) (st : TravState),
      phi edges up (traverseLin edges cols up d c st) ≤ phi edges up st := by
  intro d
  induction d with
  | zero => intro c st; simp [traverseLin]
  | succ d ih =>
      intro c st
      rw [traverseLin]
      split
      · exact le_refl _
      · rename_i hc
        have hR := phiR_cons_split edges up st.visited c hc
        have hmain := traverseLinEdges_phi edges cols up d ih
          (edges.filter (fun e => endId up e == c)) { st with visited := c :: st.visited }
        rw [← List.countP_eq_length_filter] at hmain
        simp only [phi] at hmain ⊢
        omega

lemma phi_start (edges : List LinEdge) (up : Bool) :
    phi edges up { visited := [], deps := [] } = edges.length := by
  simp [phi, phiR]

/-- C2 (amended): upstream and downstream traversal are total functions (so
they terminate on every graph, cycles included), and the length of the
returned dependency list never exceeds the number of edges in the store.
(The list can report the same column once per traversed incident edge, so the
number of distinct reachable columns is not an upper bound.) -/
theorem traversal_deps_le_edges (edges : List LinEdge) (cols : List ℕ) (depth c : ℕ) :
    (getUpstream edges cols depth c).deps.length ≤ edges.length ∧
    (getDownstream edges cols depth c).deps.length ≤ edges.length := by
  constructor
  · have h := traverseLin_phi edges cols true depth c { visited := [], deps := [] }
    rw [phi_start] at h
    have h2 : (getUpstream edges cols depth c).deps.length
        ≤ phi edges true (getUpstream edges cols depth c) := Nat.le_add_right _ _
    exact le_trans h2 h
  · have h := traverseLin_phi edges cols false depth c { visited := [], deps := [] }
    rw [phi_start] at h
    have h2 : (getDownstream edges cols depth c).deps.length
        ≤ phi edges false (getDownstream edges cols depth c) := Nat.le_add_right _ _
    exact le_trans h2 h

/-- C2 counterexample: in the diamond graph with edges 2→1, 3→1, 4→2, 4→3,
upstream traversal from column 1 returns the list [2, 4, 3, 4]: column 4 is
reachable along two paths and is reported twice, so the list holds a
duplicate and its length 4 exceeds the 3 distinct reachable columns. -/
theorem traversal_reports_node_per_edge :
    (getUpstream [⟨2, 1, "direct", ""⟩, ⟨3, 1, "direct", ""⟩, ⟨4, 2, "direct", ""⟩,
        ⟨4, 3, "direct", ""⟩] [1, 2, 3, 4] 10 1).deps = [2, 4, 3, 4] ∧
    (getUpstream [⟨2, 1, "direct", ""⟩, ⟨3, 1, "direct", ""⟩, ⟨4, 2, "direct", ""⟩,
        ⟨4, 3, "direct", ""⟩] [1, 2, 3, 4] 10 1).deps.count 4 = 2 := by
  constructor <;>
    simp +decide [getUpstream, traverseLin, traverseLinEdges, endId, nextId, List.filter]

/-! ### Characterization of the type inferencer -/

lemma ratio_lt_five_percent (u n : ℕ) (hn : 0 < n) :
    ((u : ℚ) / (n : ℚ) < 5 / 100) ↔ 20 * u < n := by
  rw [div_lt_div_iff₀ (by exact_mod_cast hn) (by norm_num)]
  have key : ((u : ℚ) * 100 < 5 * (n : ℚ)) ↔ ((100 * u : ℕ) : ℚ) < ((5 * n : ℕ) : ℚ) := by
    push_cast
    constructor <;> intro h <;> linarith
  rw [key, Nat.cast_lt]
  omega

lemma half_lt_ratio (c L : ℕ) (hL : 0 < L) :
    ((1 : ℚ) / 2 < (c : ℚ) / (L : ℚ)) ↔ L < 2 * c := by
  rw [div_lt_div_iff₀ (by norm_num) (by exact_mod_cast hL)]
  have key : ((1 : ℚ) * L < (c : ℚ) * 2) ↔ ((1 * L : ℕ) : ℚ) < ((c * 2 : ℕ) : ℚ) := by
    push_cast
    constructor <;> intro h <;> linarith
  rw [key, Nat.cast_lt]
  omega

lemma dateSample_length_pos {nn : List Val} (h : nn ≠ []) : 0 < (dateSample nn).length := by
  simp only [dateSample, List.length_take, List.length_map]
  have : 0 < nn.length := List.length_pos.mpr h
  omega

lemma isDateColumn_iff {nn : List Val} (h : nn ≠ []) :
    isDateColumn nn
      ↔ (dateSample nn).length < 2 * (dateSample nn).countP searchDatePattern := by
  unfold isDateColumn
  have hpos := dateSample_length_pos h
  rw [half_lt_ratio _ _ hpos]
  simp [hpos]

lemma inferType_eq_unknown_iff (s : Series) :
    inferType s = "unknown" ↔ nonNull s = [] := by
  simp only [inferType]
  split_ifs with h1 h2 h3 h4 <;> simp_all [List.length_eq_zero]

lemma inferType_eq_numeric_iff (s : Series) :
    inferType s = "numeric"
      ↔ nonNull s ≠ [] ∧ ∀ v ∈ nonNull s, (toNumeric v).isSome := by
  simp only [inferType]
  split_ifs with h1 h2 h3 h4 <;> simp_all [List.length_eq_zero, List.all_eq_true]

lemma inferType_eq_date_iff (s : Series) :
    inferType s = "date"
      ↔ nonNull s ≠ [] ∧ (¬ ∀ v ∈ nonNull s, (toNumeric v).isSome)
          ∧ isDateColumn (nonNull s) := by
  simp only [inferType]
  split_ifs with h1 h2 h3 h4 <;> simp_all [List.length_eq_zero, List.all_eq_true]

lemma inferType_eq_categorical_iff (s : Series) :
    inferType s = "categorical"
      ↔ nonNull s ≠ [] ∧ (¬ ∀ v ∈ nonNull s, (toNumeric v).isSome)
          ∧ ¬ isDateColumn (nonNull s)
          ∧ (((uniqueList (nonNull s)).length : ℚ) / ((nonNull s).length : ℚ) < 5 / 100
             ∨ (uniqueList (nonNull s)).length < 20) := by
  simp only [inferType]
  split_ifs with h1 h2 h3 h4 <;> simp_all [List.length_eq_zero, List.all_eq_true]

lemma inferType_eq_string_iff (s : Series) :
    inferType s = "string"
      ↔ nonNull s ≠ [] ∧ (¬ ∀ v ∈ nonNull s, (toNumeric v).isSome)
          ∧ ¬ isDateColumn (nonNull s)
          ∧ ¬ (((uniqueList (nonNull s)).length : ℚ) / ((nonNull s).length : ℚ) < 5 / 100
               ∨ (uniqueList (nonNull s)).length < 20) := by
  simp only [inferType]
  split_ifs with h1 h2 h3 h4 <;> simp_all [List.length_eq_zero, List.all_eq_true]

/-! ### C5 — the type inferencer's classification contract -/

/-- C5: the inferencer returns exactly one of the five labels, in priority
order: unknown iff there are no non-null values; else numeric iff every
non-null value passes the numeric cast; else date iff strictly more than half
of the up-to-20 sampled string values match a date pattern; else categorical
iff the distinct ratio is under 5% or the distinct count is under 20; else
string. -/
theorem inferType_classification (s : Series) :
    (inferType s = "unknown" ∨ inferType s = "numeric" ∨ inferType s = "date" ∨
      inferType s = "categorical" ∨ inferType s = "string") ∧
    (inferType s = "unknown" ↔ nonNull s = []) ∧
    (inferType s = "numeric" ↔ nonNull s ≠ [] ∧ ∀ v ∈ nonNull s, (toNumeric v).isSome) ∧
    (inferType s = "date"
      ↔ nonNull s ≠ [] ∧ (¬ ∀ v ∈ nonNull s, (toNumeric v).isSome)
          ∧ (dateSample (nonNull s)).length
              < 2 * (dateSample (nonNull s)).countP searchDatePattern) ∧
    (inferType s = "categorical"
      ↔ nonNull s ≠ [] ∧ (¬ ∀ v ∈ nonNull s, (toNumeric v).isSome)
          ∧ ¬ ((dateSample (nonNull s)).length
                < 2 * (dateSample (nonNull s)).countP searchDatePattern)
          ∧ (20 * (uniqueList (nonNull s)).length < (nonNull s).length
             ∨ (uniqueList (nonNull s)).length < 20)) ∧
    (inferType s = "string"
      ↔ nonNull s ≠ [] ∧ (¬ ∀ v ∈ nonNull s, (toNumeric v).isSome)
          ∧ ¬ ((dateSample (nonNull s)).length
                < 2 * (dateSample (nonNull s)).countP searchDatePattern)
          ∧ ¬ (20 * (uniqueList (nonNull s)).length < (nonNull s).length
               ∨ (uniqueList (nonNull s)).length < 20)) := by
  by_cases hnil : nonNull s = []
  · refine ⟨Or.inl ((inferType_eq_unknown_iff s).mpr hnil), ?_, ?_, ?_, ?_, ?_⟩ <;>
      simp_all [inferType_eq_unknown_iff, inferType_eq_numeric_iff, inferType_eq_date_iff,
        inferType_eq_categorical_iff, inferType_eq_string_iff]
  · have hpos : 0 < (nonNull s).length := List.length_pos.mpr hnil
    have hdate := isDateColumn_iff hnil
    have hratio := ratio_lt_five_percent (uniqueList (nonNull s)).length (nonNull s).length hpos
    constructor
    · by_cases h2 : ∀ v ∈ nonNull s, (toNumeric v).isSome
      · exact Or.inr (Or.inl ((inferType_eq_numeric_iff s).mpr ⟨hnil, h2⟩))
      · by_cases h3 : isDateColumn (nonNull s)
        · exact Or.inr (Or.inr (Or.inl ((inferType_eq_date_iff s).mpr ⟨hnil, h2, h3⟩)))
        · by_cases h4 : ((uniqueList (nonNull s)).length : ℚ) / ((nonNull s).length : ℚ)
              < 5 / 100 ∨ (uniqueList (nonNull s)).length < 20
          · exact Or.inr (Or.inr (Or.inr (Or.inl
              ((inferType_eq_categorical_iff s).mpr ⟨hnil, h2, h3, h4⟩))))
          · exact Or.inr (Or.inr (Or.inr (Or.inr
              ((inferType_eq_string_iff s).mpr ⟨hnil, h2, h3, h4⟩))))
    · refine ⟨inferType_eq_unknown_iff s, inferType_eq_numeric_iff s, ?_, ?_, ?_⟩
      · rw [inferType_eq_date_iff s, hdate]
      · rw [inferType_eq_categorical_iff s, hdate, hratio]
      · rw [inferType_eq_string_iff s, hdate, hratio]

/-- C5 witness: the classification facts at the concrete numeric column
`[some 7]`. -/
theorem inferType_classification_witness :
    inferType [some (.int 7)] = "numeric" :=
  ((inferType_classification [some (.int 7)]).2.2.1).mpr (by constructor <;> decide)

/-! ### Issue types emitted by each check -/

lemma missingValuesIssues_types {n : String} {s : Series} {i : QIssue}
    (h : i ∈ missingValuesIssues n s) : i.issue_type = "missing_values" := by
  simp only [missingValuesIssues] at h
  split at h
  · rw [List.mem_singleton] at h
    subst h; rfl
  · simp at h

lemma duplicatesIssues_types {n : String} {s : Series} {i : QIssue}
    (h : i ∈ duplicatesIssues n s) : i.issue_type = "duplicates" := by
  simp only [duplicatesIssues] at h
  split at h
  · split at h
    · rw [List.mem_singleton] at h
      subst h; rfl
    · simp at h
  · simp at h

lemma checkCategoricalIssues_types {n : String} {s : Series} {i : QIssue}
    (h : i ∈ checkCategoricalIssues n s) :
    i.issue_type = "case_sensitivity" ∨ i.issue_type = "whitespace_issues" := by
  simp only [checkCategoricalIssues, List.mem_append] at h
  rcases h with h | h
  · split at h
    · rw [List.mem_singleton] at h
      subst h; exact Or.inl rfl
    · simp at h
  · split at h
    · rw [List.mem_singleton] at h
      subst h; exact Or.inr rfl
    · simp at h

lemma checkNumericIssues_types {n : String} {s : Series} {i : QIssue}
    (h : i ∈ checkNumericIssues n s) :
    i.issue_type = "invalid_numeric" ∨ i.issue_type = "negative_values" ∨
      i.issue_type = "outliers" := by
  simp only [checkNumericIssues, List.mem_append] at h
  rcases h with (h | h) | h
  · split at h
    · rw [List.mem_singleton] at h
      subst h; exact Or.inl rfl
    · simp at h
  · split at h
    · split at h
      · rw [List.mem_singleton] at h
        subst h; exact Or.inr (Or.inl rfl)
      · simp at h
    · simp at h
  · split at h
    · split at h
      · rw [List.mem_singleton] at h
        subst h; exact Or.inr (Or.inr rfl)
      · simp at h
    · simp at h

/-! ### C10 — the invalid_numeric branch is unreachable for numeric columns -/

lemma checkNumericIssues_invalid_nil {s : Series}
    (hall : ∀ v ∈ nonNull s, (toNumeric v).isSome) :
    (uniqueList (nonNull s)).filter (fun v => (toNumeric v).isNone) = [] := by
  apply List.filter_eq_nil_iff.mpr
  intro v hv
  have hs := hall v (mem_of_mem_uniqueList _ v hv)
  simp [Option.isNone]
  cases h2 : toNumeric v with
  | none => rw [h2] at hs; simp at hs
  | some q => simp

/-- C10: whenever the inferencer classifies a column as numeric (the full
cast succeeded on every non-null value), the per-value cast in
`_check_numeric_issues` also succeeds on every value, so `analyze` never
emits an `invalid_numeric` issue for that column. -/
theorem numeric_column_no_invalid_numeric (name : String) (s : Series)
    (h : inferType s = "numeric") :
    (analyzeColumn name s).filter (fun i => i.issue_type == "invalid_numeric") = [] := by
  have hall : ∀ v ∈ nonNull s, (toNumeric v).isSome :=
    ((inferType_eq_numeric_iff s).mp h).2
  have hbranch : analyzeColumn name s
      = missingValuesIssues name s ++ duplicatesIssues name s ++ checkNumericIssues name s := by
    unfold analyzeColumn
    rw [h]
    simp
  rw [hbranch]
  apply List.filter_eq_nil_iff.mpr
  intro i hi
  simp only [List.mem_append] at hi
  rcases hi with (hi | hi) | hi
  · simp [missingValuesIssues_types hi]
  · simp [duplicatesIssues_types hi]
  · -- the invalid_numeric sub-list itself is empty, so only the other two
    -- numeric issue kinds can occur
    have hinv := checkNumericIssues_invalid_nil hall
    simp only [checkNumericIssues, hinv, List.length_nil, lt_irrefl, if_false,
      List.nil_append, List.mem_append] at hi
    rcases hi with hi | hi
    · split at hi
      · split at hi
        · rw [List.mem_singleton] at hi
          subst hi; simp
        · simp at hi
      · simp at hi
    · split at hi
      · split at hi
        · rw [List.mem_singleton] at hi
          subst hi; simp
        · simp at hi
      · simp at hi

/-- C10 witness: the numeric column `[some 3]` yields no invalid_numeric
issue. -/
theorem numeric_column_no_invalid_numeric_witness :
    (analyzeColumn "c" [some (.int 3)]).filter
      (fun i => i.issue_type == "invalid_numeric") = [] :=
  numeric_column_no_invalid_numeric "c" [some (.int 3)] (by decide)

/-! ### C3 — string checks are not applied to categorical columns

`_analyze_column` dispatches on the inferred type with an exclusive
if/elif/else chain: a column classified categorical gets only the
categorical checks, never the string checks. -/

/-- C3 (amended): a column the inferencer classifies as categorical receives
exactly the base checks plus the categorical checks; the string checks
(special_characters, unusually_long_values) are applied only in the fallback
branch, so no issue of either type is ever emitted for a categorical
column. -/
theorem categorical_checks_exclusive (name : String) (s : Series)
    (h : inferType s = "categorical") :
    analyzeColumn name s
      = missingValuesIssues name s ++ duplicatesIssues name s
          ++ checkCategoricalIssues name s ∧
    (analyzeColumn name s).filter
      (fun i => i.issue_type == "special_characters"
        || i.issue_type == "unusually_long_values") = [] := by
  have hbranch : analyzeColumn name s
      = missingValuesIssues name s ++ duplicatesIssues name s
          ++ checkCategoricalIssues name s := by
    unfold analyzeColumn
    rw [h]
    simp
  refine ⟨hbranch, ?_⟩
  rw [hbranch]
  apply List.filter_eq_nil_iff.mpr
  intro i hi
  simp only [List.mem_append] at hi
  rcases hi with (hi | hi) | hi
  · simp [missingValuesIssues_types hi]
  · simp [duplicatesIssues_types hi]
  · rcases checkCategoricalIssues_types hi with h2 | h2 <;> simp [h2]

/-- C3 witness: the dispatch facts at the concrete categorical column
`["ok", "ok"]`. -/
theorem categorical_checks_exclusive_witness :
    (analyzeColumn "tag" [some (.str "ok"), some (.str "ok")]).filter
      (fun i => i.issue_type == "special_characters"
        || i.issue_type == "unusually_long_values") = [] :=
  (categorical_checks_exclusive "tag" [some (.str "ok"), some (.str "ok")]
    (by norm_num +decide [inferType, nonNull, toNumeric, parseNum, parseNumCore, pySpace,
      isDateColumn, dateSample, valToStr, searchDatePattern, tripleAt, rangeList,
      digitsRunExact, matchSep, sepDashSlash, uniqueList, List.dropWhile, List.takeWhile,
      List.filterMap, List.countP_cons, List.countP_nil, List.filter])).2

/-- C3 counterexample: the column `["a!", "a!"]` is classified categorical,
its values contain a special character, yet the analyzer emits no
special_characters issue — the claim that string checks also run on
categorical columns fails. -/
theorem categorical_no_special_characters_issue :
    inferType [some (.str "a!"), some (.str "a!")] = "categorical" ∧
    hasSpecialChar "a!" = true ∧
    (analyzeColumn "tag" [some (.str "a!"), some (.str "a!")]).filter
      (fun i => i.issue_type == "special_characters") = [] := by
  refine ⟨?_, by decide, ?_⟩
  · norm_num +decide [inferType, nonNull, toNumeric, parseNum, parseNumCore, pySpace,
      isDateColumn, dateSample, valToStr, searchDatePattern, tripleAt, rangeList,
      digitsRunExact, matchSep, sepDashSlash, uniqueList, List.dropWhile, List.takeWhile,
      List.filterMap, List.countP_cons, List.countP_nil, List.filter]
  · norm_num +decide [analyzeColumn, inferType, nonNull, toNumeric, parseNum, parseNumCore,
      pySpace, isDateColumn, dateSample, valToStr, searchDatePattern, tripleAt, rangeList,
      digitsRunExact, matchSep, sepDashSlash, uniqueList, List.dropWhile, List.takeWhile,
      List.filterMap, List.countP_cons, List.countP_nil, List.filter,
      missingValuesIssues, duplicatesIssues, checkCategoricalIssues, checkStringIssues,
      checkNumericIssues, checkDateIssues, dupCount, countDupFrom, pyLower, pyStrip]

/-! ### C4 — the mean-value drift guard tests truthiness, not presence -/

/-- C4 (amended): the mean-value drift metric is computed only when the
stored previous mean is present AND the new profile's mean value is present,
truthy (nonzero number or nonempty string) and numerically castable; in
particular a present, numeric current mean of 0 is skipped.  When the guard
passes, the metric is reported exactly when the relative change
`|curr - prev| / (|prev| + 1)` exceeds the threshold. -/
theorem meanDrift_guard (p : ℚ) (v : PyVal) (th : ℚ) :
    meanDriftEntries none (some v) th = [] ∧
    meanDriftEntries (some p) none th = [] ∧
    (¬ pyTruthy v → meanDriftEntries (some p) (some v) th = []) ∧
    (∀ c : ℚ, pyTruthy v → pyFloat v = some c →
      meanDriftEntries (some p) (some v) th
        = if th < |c - p| / (|p| + 1) then
            [{ metric := "mean_value", previous := p, current := c,
               change_rate := |c - p| / (|p| + 1) }]
          else []) := by
  refine ⟨rfl, rfl, ?_, ?_⟩
  · intro hv
    unfold meanDriftEntries
    simp [hv]
  · intro c hv hc
    unfold meanDriftEntries
    simp [hv, hc]

/-- C4 witness: with previous mean 5 and threshold 0.2, a current mean of 0
is skipped by the truthiness guard while a current mean of 3 is reported
(relative change 1/3). -/
theorem meanDrift_guard_witness :
    meanDriftEntries (some 5) (some (.num 0)) (1 / 5) = [] ∧
    meanDriftEntries (some 5) (some (.num 3)) (1 / 5)
      = [{ metric := "mean_value", previous := 5, current := 3,
           change_rate := |(3 : ℚ) - 5| / (|(5 : ℚ)| + 1) }] := by
  constructor
  · exact (meanDrift_guard 5 (.num 0) (1 / 5)).2.2.1 (by norm_num [pyTruthy])
  · rw [(meanDrift_guard 5 (.num 3) (1 / 5)).2.2.2 3 (by norm_num [pyTruthy]) rfl]
    norm_num

/-- C4 counterexample: previous mean 5 and new mean 0 are both present and
numeric and the relative change 5/6 exceeds the threshold 1/5, yet
`detect_data_drift` reports nothing and persists nothing — the new mean 0 is
falsy, so the guard skips the metric, contradicting the claim that the
metric is skipped only when a value is absent or non-numeric. -/
theorem meanDrift_skips_zero_mean :
    detectDataDrift
        [⟨1, 1, 0, some 0, some 5, some 3⟩, ⟨1, 1, 1, some 0, some 5, some 3⟩] [] 1 1
        { null_percentage := some 0, mean_value := some (.num 0), unique_count := some 3 }
        (1 / 5)
      = (none, []) ∧
    (1 : ℚ) / 5 < |(0 : ℚ) - 5| / (|(5 : ℚ)| + 1) := by
  constructor
  · norm_num +decide [detectDataDrift, profilesDesc, nullDriftEntries, meanDriftEntries,
      uniqueDriftEntries, pyTruthy, pyFloat, List.insertionSort, List.orderedInsert,
      List.filter]
  · norm_num

/-! ### C1 — the missing-values scenario

On `id:[1,2,3,4,5]`, `salary:[50000,60000,None,70000,65000]` the analyzer
emits exactly one issue in total: the missing_values issue on salary with
count 1 and percentage 20.  Since the severity rule is "critical if >30, high
if >10, else medium" and 20 > 10, its severity is "high" — not "medium" as
the claim (following the spec's scenario line) states. -/

set_option maxHeartbeats 2000000 in
lemma c1_quantile_id_lo : quantileQ [(1 : ℚ), 2, 3, 4, 5] (1 / 4) = 2 := by
  norm_num [quantileQ, nthD, List.insertionSort, List.orderedInsert]

set_option maxHeartbeats 2000000 in
lemma c1_quantile_id_hi : quantileQ [(1 : ℚ), 2, 3, 4, 5] (3 / 4) = 4 := by
  norm_num [quantileQ, nthD, List.insertionSort, List.orderedInsert]

set_option maxHeartbeats 2000000 in
lemma c1_quantile_sal_lo :
    quantileQ [(50000 : ℚ), 60000, 70000, 65000] (1 / 4) = 57500 := by
  norm_num [quantileQ, nthD, List.insertionSort, List.orderedInsert]

set_option maxHeartbeats 2000000 in
lemma c1_quantile_sal_hi :
    quantileQ [(50000 : ℚ), 60000, 70000, 65000] (3 / 4) = 66250 := by
  norm_num [quantileQ, nthD, List.insertionSort, List.orderedInsert]

set_option maxHeartbeats 2000000 in
lemma c1_id_eval :
    analyzeColumn "id"
        [some (.int 1), some (.int 2), some (.int 3), some (.int 4), some (.int 5)] = [] := by
  norm_num +decide [analyzeColumn, missingValuesIssues, duplicatesIssues,
    checkNumericIssues, inferType, nonNull, toNumeric, uniqueList, dupCount, countDupFrom,
    c1_quantile_id_lo, c1_quantile_id_hi,
    List.filterMap, List.countP_cons, List.countP_nil, List.filter]

set_option maxHeartbeats 2000000 in
lemma c1_salary_eval :
    analyzeColumn "salary"
        [some (.int 50000), some (.int 60000), none, some (.int 70000), some (.int 65000)]
      = [{ column_name := "salary", issue_type := "missing_values", severity := "high",
           count := 1, percentage := 20 }] := by
  norm_num +decide [analyzeColumn, missingValuesIssues, duplicatesIssues,
    checkNumericIssues, inferType, nonNull, toNumeric, uniqueList, dupCount, countDupFrom,
    c1_quantile_sal_lo, c1_quantile_sal_hi,
    List.filterMap, List.countP_cons, List.countP_nil, List.filter]

lemma c1_scenario_eval :
    analyzeDataframe
        [("id", [some (.int 1), some (.int 2), some (.int 3), some (.int 4), some (.int 5)]),
         ("salary", [some (.int 50000), some (.int 60000), none, some (.int 70000),
                     some (.int 65000)])]
      = [{ column_name := "salary", issue_type := "missing_values", severity := "high",
           count := 1, percentage := 20 }] := by
  rw [analyzeDataframe]
  simp only [List.flatMap_cons, List.flatMap_nil]
  rw [c1_id_eval, c1_salary_eval]
  rfl

/-- C1 counterexample: the scenario dataframe yields exactly one
missing_values issue, on salary with count 1 and percentage 20, but its
severity is "high", not "medium" — 20% is above the >10 high threshold. -/
theorem missing_values_severity_not_medium :
    (analyzeDataframe
        [("id", [some (.int 1), some (.int 2), some (.int 3), some (.int 4), some (.int 5)]),
         ("salary", [some (.int 50000), some (.int 60000), none, some (.int 70000),
                     some (.int 65000)])]).filter
        (fun i => i.issue_type == "missing_values")
      = [{ column_name := "salary", issue_type := "missing_values", severity := "high",
           count := 1, percentage := 20 }] ∧
    ("high" : String) ≠ "medium" := by
  rw [c1_scenario_eval]
  refine ⟨rfl, by decide⟩

/-- C1 (amended): the scenario dataframe produces exactly one missing_values
issue, attached to salary, with count 1, percentage 20 and severity "high"
(20% exceeds the >10 threshold for high). -/
theorem missing_values_scenario :
    (analyzeDataframe
        [("id", [some (.int 1), some (.int 2), some (.int 3), some (.int 4), some (.int 5)]),
         ("salary", [some (.int 50000), some (.int 60000), none, some (.int 70000),
                     some (.int 65000)])]).filter
        (fun i => i.issue_type == "missing_values")
      = [{ column_name := "salary", issue_type := "missing_values", severity := "high",
           count := 1, percentage := 20 }] := by
  rw [c1_scenario_eval]
  rfl

/-! ### C8 — the mixed date formats scenario -/

set_option maxHeartbeats 2000000 in
lemma c8_inferType_eval :
    inferType [some (.str "2023-01-01"), some (.str "01/15/2023")] = "date" := by
  norm_num +decide [inferType, nonNull, toNumeric, parseNum, parseNumCore, pySpace,
    isDateColumn, dateSample, valToStr, searchDatePattern, tripleAt, rangeList,
    digitsRunExact, matchSep, sepDashSlash, uniqueList, List.dropWhile, List.takeWhile,
    List.filterMap, List.countP_cons, List.countP_nil, List.filter]

set_option maxHeartbeats 2000000 in
lemma c8_tally_eval :
    dateFormatsTally
        ((nonNull [some (.str "2023-01-01"), some (.str "01/15/2023")]).map valToStr)
      = [("YYYY-MM-DD", 1), ("MM/DD/YYYY", 1)] := by
  simp +decide [dateFormatsTally, bumpTally, dateFormatOf, uniqueList, nonNull, valToStr,
    tripleAt, rangeList, digitsRunExact, matchSep, sepDashSlash, List.filterMap,
    List.filter]

set_option maxHeartbeats 2000000 in
lemma c8_column_eval :
    analyzeColumn "d" [some (.str "2023-01-01"), some (.str "01/15/2023")]
      = [{ column_name := "d", issue_type := "mixed_date_formats", severity := "high",
           count := 2, percentage := 100 }] := by
  have hbranch : analyzeColumn "d" [some (.str "2023-01-01"), some (.str "01/15/2023")]
      = missingValuesIssues "d" [some (.str "2023-01-01"), some (.str "01/15/2023")]
        ++ duplicatesIssues "d" [some (.str "2023-01-01"), some (.str "01/15/2023")]
        ++ checkDateIssues "d" [some (.str "2023-01-01"), some (.str "01/15/2023")] := by
    unfold analyzeColumn
    rw [c8_inferType_eval]
    simp
  rw [hbranch]
  have hmiss : missingValuesIssues "d" [some (.str "2023-01-01"), some (.str "01/15/2023")]
      = [] := by
    simp +decide [missingValuesIssues]
  have hdup : duplicatesIssues "d" [some (.str "2023-01-01"), some (.str "01/15/2023")]
      = [] := by
    simp +decide [duplicatesIssues, nonNull, dupCount, countDupFrom, List.filterMap]
  have hdate : checkDateIssues "d" [some (.str "2023-01-01"), some (.str "01/15/2023")]
      = [{ column_name := "d", issue_type := "mixed_date_formats", severity := "high",
           count := 2, percentage := 100 }] := by
    simp only [checkDateIssues, c8_tally_eval]
    norm_num [nonNull, valToStr, List.filterMap]
  rw [hmiss, hdup, hdate]
  rfl

/-- C8: the column `["2023-01-01", "01/15/2023"]` is classified as a date
column, its format tally holds the two shapes YYYY-MM-DD and MM/DD/YYYY, and
the analyzer emits exactly one mixed_date_formats issue with severity high
and percentage 100. -/
theorem mixed_date_formats_scenario :
    inferType [some (.str "2023-01-01"), some (.str "01/15/2023")] = "date" ∧
    dateFormatsTally
        ((nonNull [some (.str "2023-01-01"), some (.str "01/15/2023")]).map valToStr)
      = [("YYYY-MM-DD", 1), ("MM/DD/YYYY", 1)] ∧
    analyzeColumn "d" [some (.str "2023-01-01"), some (.str "01/15/2023")]
      = [{ column_name := "d", issue_type := "mixed_date_formats", severity := "high",
           count := 2, percentage := 100 }] :=
  ⟨c8_inferType_eval, c8_tally_eval, c8_column_eval⟩

end DataQuick
